import Mathlib

/-!
Verification of the build-orchestration core of `roche` (src/src/main.rs).

Text is modelled as `List Char`.  In Rust, `str::replace(pat, rep)` replaces
every non-overlapping occurrence of `pat`, scanning left to right; it is
embedded below as `replaceAll`, a fuel-indexed scanner (the fuel keeps the
definition structurally recursive and kernel-computable; `replaceAll` always
supplies enough fuel).
-/

set_option maxRecDepth 4000

/-- Scanner for `replaceAll`: at each position, if `pat` matches, emit `rep`
and resume after the match, else emit one character.  Mirrors the
left-to-right non-overlapping semantics of the Rust `str::replace`. -/
def replaceGo (pat rep : List Char) : Nat → List Char → List Char
  | _, [] => []
  | 0, c :: cs => c :: cs
  | f + 1, c :: cs =>
    cond (List.isPrefixOf pat (c :: cs))
      (rep ++ replaceGo pat rep f (List.drop (pat.length - 1) cs))
      (c :: replaceGo pat rep f cs)

/-- Embedding of the Rust `str::replace`: `s.replace(pat, rep)`. -/
def replaceAll (s pat rep : List Char) : List Char :=
  replaceGo pat rep s.length s

theorem replaceGo_nil (pat rep : List Char) (f : Nat) :
    replaceGo pat rep f [] = [] := by
  cases f <;> rfl

theorem replaceGo_succ (pat rep : List Char) (f : Nat) (c : Char) (cs : List Char) :
    replaceGo pat rep (f + 1) (c :: cs) =
      cond (List.isPrefixOf pat (c :: cs))
        (rep ++ replaceGo pat rep f (List.drop (pat.length - 1) cs))
        (c :: replaceGo pat rep f cs) := rfl

/-- The scanner result does not depend on the fuel, as long as the fuel
covers the length of the scanned text. -/
theorem replaceGo_fuel (pat rep : List Char) :
    ∀ f₁ f₂ s, s.length ≤ f₁ → s.length ≤ f₂ →
      replaceGo pat rep f₁ s = replaceGo pat rep f₂ s := by
  intro f₁
  induction f₁ with
  | zero =>
    intro f₂ s h₁ _
    have : s = [] := List.length_eq_zero.mp (Nat.le_zero.mp h₁)
    subst this
    simp [replaceGo_nil]
  | succ f ih =>
    intro f₂ s h₁ h₂
    match s with
    | [] => simp [replaceGo_nil]
    | c :: cs =>
      match f₂ with
      | 0 => simp at h₂
      | f₂ + 1 =>
        rw [replaceGo_succ, replaceGo_succ]
        cases hp : List.isPrefixOf pat (c :: cs) with
        | true =>
          simp only [cond_true]
          congr 1
          apply ih
          · calc (List.drop (pat.length - 1) cs).length ≤ cs.length := by
                  rw [List.length_drop]; omega
              _ ≤ f := by simpa using h₁
          · calc (List.drop (pat.length - 1) cs).length ≤ cs.length := by
                  rw [List.length_drop]; omega
              _ ≤ f₂ := by simpa using h₂
        | false =>
          simp only [cond_false]
          congr 1
          apply ih
          · simpa using h₁
          · simpa using h₂

/-- No match starts inside `x` when `x ++ rest` is scanned for `pat`. -/
def NoHit (pat x rest : List Char) : Prop :=
  ∀ i, i < x.length → ¬ pat <+: (x.drop i ++ rest)

instance (pat x rest : List Char) : Decidable (NoHit pat x rest) :=
  inferInstanceAs (Decidable (∀ i, i < x.length → ¬ pat <+: (x.drop i ++ rest)))

/-- Scanning passes over a hit-free chunk unchanged. -/
theorem replaceGo_chunk (pat rep : List Char) :
    ∀ x rest f, (x ++ rest).length ≤ f → NoHit pat x rest →
      replaceGo pat rep f (x ++ rest) = x ++ replaceGo pat rep rest.length rest := by
  intro x
  induction x with
  | nil =>
    intro rest f hf _
    simp only [List.nil_append]
    exact replaceGo_fuel pat rep f rest.length rest (by simpa using hf) le_rfl
  | cons c cs ih =>
    intro rest f hf hnh
    match f with
    | 0 => simp at hf
    | f + 1 =>
      have hnot : List.isPrefixOf pat (c :: (cs ++ rest)) = false := by
        have h0 := hnh 0 (by simp)
        simp only [List.drop_zero] at h0
        rw [← Bool.not_eq_true]
        intro hb
        exact h0 (by simpa using ( List.isPrefixOf_iff_prefix.mp hb))
      have : (c :: cs) ++ rest = c :: (cs ++ rest) := rfl
      rw [this, replaceGo_succ, hnot, cond_false]
      have htail : NoHit pat cs rest := by
        intro i hi
        have := hnh (i + 1) (by simp; omega)
        simpa using this
      have := ih rest f (by simpa using hf) htail
      rw [this]
      rfl

/-- Scanning a string that starts with the pattern emits the replacement and
resumes after it. -/
theorem replaceGo_hit (pat rep y : List Char) (f : Nat) (hpat : pat ≠ [])
    (hf : (pat ++ y).length ≤ f) :
    replaceGo pat rep f (pat ++ y) = rep ++ replaceGo pat rep y.length y := by
  match pat, hpat with
  | p :: ps, _ =>
    match f with
    | 0 => simp at hf
    | f + 1 =>
      have hpre : List.isPrefixOf (p :: ps) ((p :: ps) ++ y) = true :=
        List.isPrefixOf_iff_prefix.mpr (List.prefix_append _ _)
      have : (p :: ps) ++ y = p :: (ps ++ y) := rfl
      rw [this] at hpre ⊢
      rw [replaceGo_succ, hpre, cond_true]
      congr 1
      have hlen : (p :: ps).length - 1 = ps.length := by simp
      rw [hlen, List.drop_left]
      apply replaceGo_fuel
      · simp at hf; omega
      · exact le_rfl

/-- Scanning a string with no occurrence of the pattern leaves it unchanged. -/
theorem replaceGo_id (pat rep : List Char) :
    ∀ s f, s.length ≤ f → ¬ pat <:+: s → replaceGo pat rep f s = s := by
  intro s
  induction s with
  | nil => intro f _ _; exact replaceGo_nil pat rep f
  | cons c cs ih =>
    intro f hf hinf
    match f with
    | 0 => simp at hf
    | f + 1 =>
      have hnot : List.isPrefixOf pat (c :: cs) = false := by
        rw [← Bool.not_eq_true]
        intro hb
        have hpre := List.isPrefixOf_iff_prefix.mp hb
        exact hinf hpre.isInfix
      rw [replaceGo_succ, hnot, cond_false]
      congr 1
      exact ih f (by simpa using hf) (fun h => hinf (List.infix_cons h))

/-- Decidable per-position checks on a concrete chunk: the pattern matches at
no position of `x`, and no suffix of `x` is an initial part of the pattern
(so no match can start inside `x` and continue past its end). -/
def ChunkChecks (pat x : List Char) : Prop :=
  ∀ i, i < x.length → ¬ pat <+: x.drop i ∧ ¬ x.drop i <+: pat

instance (pat x : List Char) : Decidable (ChunkChecks pat x) :=
  inferInstanceAs (Decidable (∀ i, i < x.length → ¬ pat <+: x.drop i ∧ ¬ x.drop i <+: pat))

/-- A concrete chunk that is at least as long as the pattern, passes the
per-position checks, and whose initial part completes no partial match:
the conditions under which a chunk shields whatever follows it. -/
def SafeChunk (pat x : List Char) : Prop :=
  ChunkChecks pat x ∧ pat.length ≤ x.length ∧
    ∀ k, k < pat.length → 0 < k → ¬ pat.drop k <+: x

instance (pat x : List Char) : Decidable (SafeChunk pat x) :=
  inferInstanceAs (Decidable (ChunkChecks pat x ∧ pat.length ≤ x.length ∧
    ∀ k, k < pat.length → 0 < k → ¬ pat.drop k <+: x))

theorem noHit_append {pat x₁ x₂ rest : List Char}
    (h₁ : NoHit pat x₁ (x₂ ++ rest)) (h₂ : NoHit pat x₂ rest) :
    NoHit pat (x₁ ++ x₂) rest := by
  intro i hi
  rw [List.length_append] at hi
  by_cases hlt : i < x₁.length
  · rw [List.drop_append_of_le_length (Nat.le_of_lt hlt), List.append_assoc]
    exact h₁ i hlt
  · have hj : i = x₁.length + (i - x₁.length) := by omega
    rw [hj, List.drop_append]
    exact h₂ (i - x₁.length) (by omega)

theorem noHit_of_checks {pat x : List Char} (rest : List Char)
    (h : ChunkChecks pat x) : NoHit pat x rest := by
  intro i hi hpre
  by_cases hl : pat.length ≤ (x.drop i).length
  · exact (h i hi).1
      (List.prefix_of_prefix_length_le hpre (List.prefix_append _ _) hl)
  · exact (h i hi).2
      (List.prefix_of_prefix_length_le (List.prefix_append _ _) hpre (by omega))

/-- A match cannot start inside an opaque chunk `b`: the pattern does not
occur in `b`, and a partial match running off the end of `b` would have to
continue into `x`, a concrete chunk prefixing what follows `b`. -/
theorem noHit_param {pat b rest : List Char} (x : List Char)
    (hI : ¬ pat <:+: b) (hx : x <+: rest) (hl : pat.length ≤ x.length)
    (hk : ∀ k, k < pat.length → 0 < k → pat.take k <:+ b → ¬ pat.drop k <+: x) :
    NoHit pat b rest := by
  intro i hi hpre
  by_cases hbl : pat.length ≤ (b.drop i).length
  · have : pat <+: b.drop i :=
      List.prefix_of_prefix_length_le hpre (List.prefix_append _ _) hbl
    exact hI (List.infix_iff_prefix_suffix.mpr ⟨b.drop i, this, List.drop_suffix i b⟩)
  · have hz : b.drop i <+: pat :=
      List.prefix_of_prefix_length_le (List.prefix_append _ _) hpre (by omega)
    set k := (b.drop i).length with hkdef
    have hk0 : 0 < k := by
      have : i < b.length := hi
      simp only [hkdef, List.length_drop]; omega
    have hklt : k < pat.length := by omega
    -- pat = b.drop i ++ pat.drop k, so pat.drop k is a prefix of rest
    have hsplit : b.drop i = pat.take k := by
      have := List.prefix_iff_eq_take.mp hz
      simpa [hkdef] using this
    have hdk : pat.drop k <+: rest := by
      obtain ⟨t, ht⟩ := hpre
      refine ⟨t, ?_⟩
      have : pat.take k ++ (pat.drop k ++ t) = pat.take k ++ rest := by
        rw [← List.append_assoc, List.take_append_drop, ht, hsplit]
      exact List.append_cancel_left this
    exact hk k hklt hk0 (hsplit ▸ List.drop_suffix i b)
      (List.prefix_of_prefix_length_le hdk hx (by rw [List.length_drop]; omega))

/-- No occurrence at all follows from no match starting anywhere. -/
theorem not_infix_of_noHit {pat s : List Char} (hpat : pat ≠ [])
    (h : NoHit pat s []) : ¬ pat <:+: s := by
  rintro ⟨u, v, huv⟩
  have hlen : u.length < s.length := by
    have := congrArg List.length huv
    simp only [List.length_append] at this
    have : s.length = u.length + pat.length + v.length := by omega
    have hp : 0 < pat.length := List.length_pos.mpr hpat
    omega
  have := h u.length hlen
  apply this
  have : s.drop u.length = pat ++ v := by
    rw [← huv, List.append_assoc, List.drop_left]
  rw [this, List.append_nil]
  exact List.prefix_append _ _

/-- Substituting the single designated occurrence: if no match starts before
it and the pattern does not occur after it, `replaceAll` rewrites exactly
that occurrence. -/
theorem replaceAll_sub {s A B pat : List Char} (rep : List Char) (hpat : pat ≠ [])
    (hs : s = A ++ (pat ++ B)) (hA : NoHit pat A (pat ++ B)) (hB : ¬ pat <:+: B) :
    replaceAll s pat rep = A ++ (rep ++ B) := by
  subst hs
  unfold replaceAll
  rw [replaceGo_chunk pat rep A (pat ++ B) _ le_rfl hA]
  rw [replaceGo_hit pat rep B _ hpat le_rfl]
  rw [replaceGo_id pat rep B B.length le_rfl hB]

/-- A pattern that does not occur leaves the text unchanged. -/
theorem replaceAll_skip {s pat : List Char} (rep : List Char) (hs : ¬ pat <:+: s) :
    replaceAll s pat rep = s :=
  replaceGo_id pat rep s s.length le_rfl hs

/-- No match starts inside `C₁ ++ (b ++ C₂)` (concrete, opaque, concrete),
whatever follows. -/
theorem noHit_shape3 {pat C₁ b C₂ : List Char} (rest : List Char)
    (h₁ : ChunkChecks pat C₁) (hb : ¬ pat <:+: b) (h₂ : SafeChunk pat C₂) :
    NoHit pat (C₁ ++ (b ++ C₂)) rest :=
  noHit_append (noHit_of_checks _ h₁)
    (noHit_append
      (noHit_param C₂ hb (List.prefix_append _ _) h₂.2.1
        (fun k h1 h2 _ => h₂.2.2 k h1 h2))
      (noHit_of_checks rest h₂.1))

/-- No match starts inside `C₁ ++ (b ++ (C₂ ++ (r ++ C₃)))`, whatever
follows. -/
theorem noHit_shape5 {pat C₁ b C₂ r C₃ : List Char} (rest : List Char)
    (h₁ : ChunkChecks pat C₁) (hb : ¬ pat <:+: b) (h₂ : SafeChunk pat C₂)
    (hr : ¬ pat <:+: r) (h₃ : SafeChunk pat C₃) :
    NoHit pat (C₁ ++ (b ++ (C₂ ++ (r ++ C₃)))) rest :=
  noHit_append (noHit_of_checks _ h₁)
    (noHit_append
      (noHit_param C₂ hb ⟨(r ++ C₃) ++ rest, by simp [List.append_assoc]⟩
        h₂.2.1 (fun k h1 h2 _ => h₂.2.2 k h1 h2))
      (noHit_append (noHit_of_checks _ h₂.1)
        (noHit_append
          (noHit_param C₃ hr (List.prefix_append _ _) h₃.2.1
            (fun k h1 h2 _ => h₃.2.2 k h1 h2))
          (noHit_of_checks rest h₃.1))))

/-- The pattern does not occur in `C₁ ++ (b ++ C₂)`. -/
theorem notInfix_shape3 {pat C₁ b C₂ : List Char} (hpat : pat ≠ [])
    (h₁ : ChunkChecks pat C₁) (hb : ¬ pat <:+: b) (h₂ : SafeChunk pat C₂) :
    ¬ pat <:+: (C₁ ++ (b ++ C₂)) :=
  not_infix_of_noHit hpat (noHit_shape3 [] h₁ hb h₂)

/-- The pattern does not occur in `C₁ ++ (b ++ (C₂ ++ (r ++ C₃)))`. -/
theorem notInfix_shape5 {pat C₁ b C₂ r C₃ : List Char} (hpat : pat ≠ [])
    (h₁ : ChunkChecks pat C₁) (hb : ¬ pat <:+: b) (h₂ : SafeChunk pat C₂)
    (hr : ¬ pat <:+: r) (h₃ : SafeChunk pat C₃) :
    ¬ pat <:+: (C₁ ++ (b ++ (C₂ ++ (r ++ C₃)))) :=
  not_infix_of_noHit hpat (noHit_shape5 [] h₁ hb h₂ hr h₃)

/-! Marker tokens and replacement strings, verbatim from src/src/main.rs. -/

def devBaseMarker : List Char := "DEV_BASE_IMAGE".toList
def testBaseMarker : List Char := "TEST_BASE_IMAGE".toList
def runtimeMarker : List Char := "RUNTIME_IMAGE".toList
def includeEnvMarker : List Char := "INCLUDE_ENV".toList
def includeEnvSpaceMarker : List Char := "INCLUDE_ENV ".toList
def baseMarker : List Char := "BASE_IMAGE".toList
def libMarker : List Char := "#LIB_RS".toList
def testMarker : List Char := "#TEST".toList
def envMarker : List Char := "#ENV".toList

def includeEnvRep : List Char := "app-build/src/.env*".toList
def libRep : List Char := "COPY lib.rs /app-build/src".toList
def testRep : List Char := "RUN cargo test --lib --release".toList
def envRep : List Char := "COPY .env /app-build/src".toList

/-- Spaced include-env marker, scanned across an opaque parameter followed by
a chunk that may begin with a space: a partial match whose trailing space
falls in the chunk would force the unspaced marker to be a suffix of the
parameter, which the parameter hypothesis rules out. -/
theorem noHit_spacedEnv {b rest : List Char} (x : List Char)
    (hbie : ¬ includeEnvMarker <:+: b) (hx : x <+: rest)
    (hl : includeEnvSpaceMarker.length ≤ x.length)
    (hk : ∀ k, k < includeEnvSpaceMarker.length → 0 < k → k ≠ 11 →
      ¬ includeEnvSpaceMarker.drop k <+: x) :
    NoHit includeEnvSpaceMarker b rest := by
  have hbies : ¬ includeEnvSpaceMarker <:+: b :=
    fun h => hbie (List.IsInfix.trans (by decide) h)
  refine noHit_param x hbies hx hl ?_
  intro k hklt hk0 htake
  by_cases h11 : k = 11
  · subst h11
    intro _
    exact hbie
      (((by decide : includeEnvSpaceMarker.take 11 = includeEnvMarker) ▸ htake).isInfix)
  · exact hk k hklt hk0 h11


/-- Dev-flow rendering, src/src/main.rs lines 368-378: substitute the build
image, then the runtime image; then, if `.env` exists, substitute the
include-env marker, else delete the marker together with its trailing
space. -/
def devRender (t b r : List Char) (envFile : Bool) : List Char :=
  let s₁ := replaceAll t devBaseMarker b
  let s₂ := replaceAll s₁ runtimeMarker r
  if envFile then replaceAll s₂ includeEnvMarker includeEnvRep
  else replaceAll s₂ includeEnvSpaceMarker []

/-- Test-flow rendering, src/src/main.rs lines 453-462. -/
def testRender (t ti : List Char) (envFile : Bool) : List Char :=
  let s₁ := replaceAll t testBaseMarker ti
  if envFile then replaceAll s₁ includeEnvMarker includeEnvRep
  else replaceAll s₁ includeEnvSpaceMarker []

/-- Release-flow rendering, src/src/main.rs lines 535-554: substitute the
build image; if `lib.rs` exists, substitute the copy and test markers; if
`.env` exists, substitute the env marker; finally the runtime image.  The
gated markers are left untouched when their file is absent. -/
def releaseRender (t b r : List Char) (libRs envFile : Bool) : List Char :=
  let s₁ := replaceAll t baseMarker b
  let s₂ := if libRs then replaceAll (replaceAll s₁ libMarker libRep) testMarker testRep
            else s₁
  let s₃ := if envFile then replaceAll s₂ envMarker envRep else s₂
  replaceAll s₃ runtimeMarker r

/-- Gen-flow rendering, src/src/main.rs lines 675-692: same substitutions as
the release flow but with the runtime image substituted second. -/
def genRender (t b r : List Char) (libRs envFile : Bool) : List Char :=
  let s₁ := replaceAll t baseMarker b
  let s₂ := replaceAll s₁ runtimeMarker r
  let s₃ := if libRs then replaceAll (replaceAll s₂ libMarker libRep) testMarker testRep
            else s₂
  if envFile then replaceAll s₃ envMarker envRep else s₃

/-! Modelled from the spec: the literal contents of the embedded Dockerfile
templates (src/template/Dev.Dockerfile, Libtest.Dockerfile,
Release.Dockerfile) are not under src/; per spec sections 1 and 4.4 they are
opaque trusted text blobs in which each marker occurs once as a unique,
isolated token.  The templates below realise that description; they are kept
as explicit concatenations so the marker positions are manifest. -/

def dev₀ : List Char := "FROM ".toList
def dev₁ : List Char := " as app-build\nCOPY . /app-build/src\nCOPY stub.txt ".toList
def dev₂ : List Char := " /app-build/src/\nRUN cargo build\nFROM ".toList
def dev₃ : List Char := "\nCMD start the dev server\n".toList

/-- Modelled from the spec: the embedded Dev.Dockerfile template. -/
def devTemplate : List Char :=
  dev₀ ++ (devBaseMarker ++ (dev₁ ++ (includeEnvMarker ++ (dev₂ ++ (runtimeMarker ++ dev₃)))))

def tst₀ : List Char := "FROM ".toList
def tst₁ : List Char := " as app-build\nCOPY . /app-build/src\nCOPY stub.txt ".toList
def tst₂ : List Char := " /app-build/src/\nRUN cargo test --lib\n".toList

/-- Modelled from the spec: the embedded Libtest.Dockerfile template. -/
def testTemplate : List Char :=
  tst₀ ++ (testBaseMarker ++ (tst₁ ++ (includeEnvMarker ++ tst₂)))

def rel₀ : List Char := "FROM ".toList
def rel₁ : List Char := " as app-build\nCOPY . /app-build/src\n".toList
def rel₂ : List Char := "\n".toList
def rel₃ : List Char := "\n".toList
def rel₄ : List Char := "\nRUN cargo build --release\nFROM ".toList
def rel₅ : List Char := "\nCMD start the service\n".toList

/-- Modelled from the spec: the embedded Release.Dockerfile template. -/
def releaseTemplate : List Char :=
  rel₀ ++ (baseMarker ++ (rel₁ ++ (libMarker ++ (rel₂ ++ (testMarker ++
    (rel₃ ++ (envMarker ++ (rel₄ ++ (runtimeMarker ++ rel₅)))))))))

/-- A parameter string that contains none of the marker tokens. -/
def MarkerFree (x : List Char) : Prop :=
  ¬ devBaseMarker <:+: x ∧ ¬ testBaseMarker <:+: x ∧ ¬ runtimeMarker <:+: x ∧
  ¬ includeEnvMarker <:+: x ∧ ¬ baseMarker <:+: x ∧ ¬ libMarker <:+: x ∧
  ¬ testMarker <:+: x ∧ ¬ envMarker <:+: x

instance (x : List Char) : Decidable (MarkerFree x) :=
  inferInstanceAs (Decidable (¬ devBaseMarker <:+: x ∧ ¬ testBaseMarker <:+: x ∧
    ¬ runtimeMarker <:+: x ∧ ¬ includeEnvMarker <:+: x ∧ ¬ baseMarker <:+: x ∧
    ¬ libMarker <:+: x ∧ ¬ testMarker <:+: x ∧ ¬ envMarker <:+: x))

def dev₂tail : List Char := "/app-build/src/\nRUN cargo build\nFROM ".toList
def tst₂tail : List Char := "/app-build/src/\nRUN cargo test --lib\n".toList

theorem devRender_envT (b r : List Char) (hbr : ¬ runtimeMarker <:+: b)
    (hbie : ¬ includeEnvMarker <:+: b) (hrie : ¬ includeEnvMarker <:+: r) :
    devRender devTemplate b r true =
      (dev₀ ++ (b ++ dev₁)) ++ (includeEnvRep ++ (dev₂ ++ (r ++ dev₃))) := by
  have e₁ : replaceAll devTemplate devBaseMarker b =
      dev₀ ++ (b ++ (dev₁ ++ (includeEnvMarker ++ (dev₂ ++ (runtimeMarker ++ dev₃))))) :=
    replaceAll_sub b (by decide) rfl (by decide) (by decide)
  have e₂ : replaceAll
      (dev₀ ++ (b ++ (dev₁ ++ (includeEnvMarker ++ (dev₂ ++ (runtimeMarker ++ dev₃))))))
      runtimeMarker r =
      (dev₀ ++ (b ++ (dev₁ ++ (includeEnvMarker ++ dev₂)))) ++ (r ++ dev₃) :=
    replaceAll_sub r (by decide) (by simp [List.append_assoc])
      (noHit_shape3 _ (by decide) hbr (by decide)) (by decide)
  show replaceAll (replaceAll (replaceAll devTemplate devBaseMarker b) runtimeMarker r)
      includeEnvMarker includeEnvRep = _
  rw [e₁, e₂]
  exact replaceAll_sub includeEnvRep (by decide) (by simp [List.append_assoc])
    (noHit_shape3 _ (by decide) hbie (by decide))
    (notInfix_shape3 (by decide) (by decide) hrie (by decide))

theorem devRender_envF (b r : List Char) (hbr : ¬ runtimeMarker <:+: b)
    (hbie : ¬ includeEnvMarker <:+: b) (hrie : ¬ includeEnvMarker <:+: r) :
    devRender devTemplate b r false =
      (dev₀ ++ (b ++ dev₁)) ++ (dev₂tail ++ (r ++ dev₃)) := by
  have hbies : ¬ includeEnvSpaceMarker <:+: b :=
    fun h => hbie (List.IsInfix.trans (by decide) h)
  have hries : ¬ includeEnvSpaceMarker <:+: r :=
    fun h => hrie (List.IsInfix.trans (by decide) h)
  have e₁ : replaceAll devTemplate devBaseMarker b =
      dev₀ ++ (b ++ (dev₁ ++ (includeEnvMarker ++ (dev₂ ++ (runtimeMarker ++ dev₃))))) :=
    replaceAll_sub b (by decide) rfl (by decide) (by decide)
  have e₂ : replaceAll
      (dev₀ ++ (b ++ (dev₁ ++ (includeEnvMarker ++ (dev₂ ++ (runtimeMarker ++ dev₃))))))
      runtimeMarker r =
      (dev₀ ++ (b ++ (dev₁ ++ (includeEnvMarker ++ dev₂)))) ++ (r ++ dev₃) :=
    replaceAll_sub r (by decide) (by simp [List.append_assoc])
      (noHit_shape3 _ (by decide) hbr (by decide)) (by decide)
  have key : ∀ Z : List Char,
      includeEnvMarker ++ (dev₂ ++ Z) = includeEnvSpaceMarker ++ (dev₂tail ++ Z) := by
    intro Z
    rw [← List.append_assoc, ← List.append_assoc,
      (by decide : includeEnvMarker ++ dev₂ = includeEnvSpaceMarker ++ dev₂tail)]
  have e₃ : replaceAll
      ((dev₀ ++ (b ++ (dev₁ ++ (includeEnvMarker ++ dev₂)))) ++ (r ++ dev₃))
      includeEnvSpaceMarker [] =
      (dev₀ ++ (b ++ dev₁)) ++ (([] : List Char) ++ (dev₂tail ++ (r ++ dev₃))) :=
    replaceAll_sub ([] : List Char) (by decide)
      (by simp only [List.append_assoc]; rw [key])
      (noHit_append (noHit_of_checks _ (by decide))
        (noHit_append
          (noHit_spacedEnv dev₁ hbie (List.prefix_append _ _) (by decide) (by decide))
          (noHit_of_checks _ (by decide))))
      (notInfix_shape3 (by decide) (by decide) hries (by decide))
  show replaceAll (replaceAll (replaceAll devTemplate devBaseMarker b) runtimeMarker r)
      includeEnvSpaceMarker [] = _
  rw [e₁, e₂, e₃]
  simp

theorem testRender_envT (ti : List Char) (htie : ¬ includeEnvMarker <:+: ti) :
    testRender testTemplate ti true =
      (tst₀ ++ (ti ++ tst₁)) ++ (includeEnvRep ++ tst₂) := by
  have e₁ : replaceAll testTemplate testBaseMarker ti =
      tst₀ ++ (ti ++ (tst₁ ++ (includeEnvMarker ++ tst₂))) :=
    replaceAll_sub ti (by decide) rfl (by decide) (by decide)
  show replaceAll (replaceAll testTemplate testBaseMarker ti)
      includeEnvMarker includeEnvRep = _
  rw [e₁]
  exact replaceAll_sub includeEnvRep (by decide) (by simp [List.append_assoc])
    (noHit_shape3 _ (by decide) htie (by decide)) (by decide)

theorem testRender_envF (ti : List Char) (htie : ¬ includeEnvMarker <:+: ti) :
    testRender testTemplate ti false =
      (tst₀ ++ (ti ++ tst₁)) ++ tst₂tail := by
  have hties : ¬ includeEnvSpaceMarker <:+: ti :=
    fun h => htie (List.IsInfix.trans (by decide) h)
  have e₁ : replaceAll testTemplate testBaseMarker ti =
      tst₀ ++ (ti ++ (tst₁ ++ (includeEnvMarker ++ tst₂))) :=
    replaceAll_sub ti (by decide) rfl (by decide) (by decide)
  have key : includeEnvMarker ++ tst₂ = includeEnvSpaceMarker ++ tst₂tail := by decide
  have e₂ : replaceAll (tst₀ ++ (ti ++ (tst₁ ++ (includeEnvMarker ++ tst₂))))
      includeEnvSpaceMarker [] =
      (tst₀ ++ (ti ++ tst₁)) ++ (([] : List Char) ++ tst₂tail) :=
    replaceAll_sub ([] : List Char) (by decide)
      (by simp only [List.append_assoc]; rw [key])
      (noHit_append (noHit_of_checks _ (by decide))
        (noHit_append
          (noHit_spacedEnv tst₁ htie (List.prefix_append _ _) (by decide) (by decide))
          (noHit_of_checks _ (by decide))))
      (by decide)
  show replaceAll (replaceAll testTemplate testBaseMarker ti)
      includeEnvSpaceMarker [] = _
  rw [e₁, e₂]
  simp

theorem releaseRender_TT (b r : List Char)
    (hbl : ¬ libMarker <:+: b) (hbt : ¬ testMarker <:+: b)
    (hbe : ¬ envMarker <:+: b) (hbr : ¬ runtimeMarker <:+: b) :
    releaseRender releaseTemplate b r true true =
      (rel₀ ++ (b ++ (rel₁ ++ (libRep ++ (rel₂ ++ (testRep ++ (rel₃ ++ (envRep ++ rel₄)))))))) ++
        (r ++ rel₅) := by
  have e₁ : replaceAll releaseTemplate baseMarker b =
      rel₀ ++ (b ++ (rel₁ ++ (libMarker ++ (rel₂ ++ (testMarker ++
        (rel₃ ++ (envMarker ++ (rel₄ ++ (runtimeMarker ++ rel₅))))))))) :=
    replaceAll_sub b (by decide) rfl (by decide) (by decide)
  have e₂ : replaceAll
      (rel₀ ++ (b ++ (rel₁ ++ (libMarker ++ (rel₂ ++ (testMarker ++
        (rel₃ ++ (envMarker ++ (rel₄ ++ (runtimeMarker ++ rel₅))))))))))
      libMarker libRep =
      (rel₀ ++ (b ++ rel₁)) ++ (libRep ++ (rel₂ ++ (testMarker ++
        (rel₃ ++ (envMarker ++ (rel₄ ++ (runtimeMarker ++ rel₅))))))) :=
    replaceAll_sub libRep (by decide) (by simp [List.append_assoc])
      (noHit_shape3 _ (by decide) hbl (by decide)) (by decide)
  have e₃ : replaceAll
      ((rel₀ ++ (b ++ rel₁)) ++ (libRep ++ (rel₂ ++ (testMarker ++
        (rel₃ ++ (envMarker ++ (rel₄ ++ (runtimeMarker ++ rel₅))))))))
      testMarker testRep =
      (rel₀ ++ (b ++ (rel₁ ++ (libRep ++ rel₂)))) ++ (testRep ++
        (rel₃ ++ (envMarker ++ (rel₄ ++ (runtimeMarker ++ rel₅))))) :=
    replaceAll_sub testRep (by decide) (by simp [List.append_assoc])
      (noHit_shape3 _ (by decide) hbt (by decide)) (by decide)
  have e₄ : replaceAll
      ((rel₀ ++ (b ++ (rel₁ ++ (libRep ++ rel₂)))) ++ (testRep ++
        (rel₃ ++ (envMarker ++ (rel₄ ++ (runtimeMarker ++ rel₅))))))
      envMarker envRep =
      (rel₀ ++ (b ++ (rel₁ ++ (libRep ++ (rel₂ ++ (testRep ++ rel₃)))))) ++
        (envRep ++ (rel₄ ++ (runtimeMarker ++ rel₅))) :=
    replaceAll_sub envRep (by decide) (by simp [List.append_assoc])
      (noHit_shape3 _ (by decide) hbe (by decide)) (by decide)
  have e₅ : replaceAll
      ((rel₀ ++ (b ++ (rel₁ ++ (libRep ++ (rel₂ ++ (testRep ++ rel₃)))))) ++
        (envRep ++ (rel₄ ++ (runtimeMarker ++ rel₅))))
      runtimeMarker r =
      (rel₀ ++ (b ++ (rel₁ ++ (libRep ++ (rel₂ ++ (testRep ++ (rel₃ ++ (envRep ++ rel₄)))))))) ++
        (r ++ rel₅) :=
    replaceAll_sub r (by decide) (by simp [List.append_assoc])
      (noHit_shape3 _ (by decide) hbr (by decide)) (by decide)
  show replaceAll (replaceAll (replaceAll (replaceAll (replaceAll releaseTemplate
      baseMarker b) libMarker libRep) testMarker testRep) envMarker envRep)
      runtimeMarker r = _
  rw [e₁, e₂, e₃, e₄]
  exact e₅

theorem releaseRender_FF (b r : List Char) (hbr : ¬ runtimeMarker <:+: b) :
    releaseRender releaseTemplate b r false false =
      (rel₀ ++ (b ++ (rel₁ ++ (libMarker ++ (rel₂ ++ (testMarker ++
        (rel₃ ++ (envMarker ++ rel₄)))))))) ++ (r ++ rel₅) := by
  have e₁ : replaceAll releaseTemplate baseMarker b =
      rel₀ ++ (b ++ (rel₁ ++ (libMarker ++ (rel₂ ++ (testMarker ++
        (rel₃ ++ (envMarker ++ (rel₄ ++ (runtimeMarker ++ rel₅))))))))) :=
    replaceAll_sub b (by decide) rfl (by decide) (by decide)
  have e₂ : replaceAll
      (rel₀ ++ (b ++ (rel₁ ++ (libMarker ++ (rel₂ ++ (testMarker ++
        (rel₃ ++ (envMarker ++ (rel₄ ++ (runtimeMarker ++ rel₅))))))))))
      runtimeMarker r =
      (rel₀ ++ (b ++ (rel₁ ++ (libMarker ++ (rel₂ ++ (testMarker ++
        (rel₃ ++ (envMarker ++ rel₄)))))))) ++ (r ++ rel₅) :=
    replaceAll_sub r (by decide) (by simp [List.append_assoc])
      (noHit_shape3 _ (by decide) hbr (by decide)) (by decide)
  show replaceAll (replaceAll releaseTemplate baseMarker b) runtimeMarker r = _
  rw [e₁]
  exact e₂

theorem genRender_TT (b r : List Char)
    (hbl : ¬ libMarker <:+: b) (hbt : ¬ testMarker <:+: b)
    (hbe : ¬ envMarker <:+: b) (hbr : ¬ runtimeMarker <:+: b)
    (hrl : ¬ libMarker <:+: r) (hrt : ¬ testMarker <:+: r)
    (hre : ¬ envMarker <:+: r) :
    genRender releaseTemplate b r true true =
      (rel₀ ++ (b ++ (rel₁ ++ (libRep ++ (rel₂ ++ (testRep ++ rel₃)))))) ++
        (envRep ++ (rel₄ ++ (r ++ rel₅))) := by
  have e₁ : replaceAll releaseTemplate baseMarker b =
      rel₀ ++ (b ++ (rel₁ ++ (libMarker ++ (rel₂ ++ (testMarker ++
        (rel₃ ++ (envMarker ++ (rel₄ ++ (runtimeMarker ++ rel₅))))))))) :=
    replaceAll_sub b (by decide) rfl (by decide) (by decide)
  have e₂ : replaceAll
      (rel₀ ++ (b ++ (rel₁ ++ (libMarker ++ (rel₂ ++ (testMarker ++
        (rel₃ ++ (envMarker ++ (rel₄ ++ (runtimeMarker ++ rel₅))))))))))
      runtimeMarker r =
      (rel₀ ++ (b ++ (rel₁ ++ (libMarker ++ (rel₂ ++ (testMarker ++
        (rel₃ ++ (envMarker ++ rel₄)))))))) ++ (r ++ rel₅) :=
    replaceAll_sub r (by decide) (by simp [List.append_assoc])
      (noHit_shape3 _ (by decide) hbr (by decide)) (by decide)
  have e₃ : replaceAll
      ((rel₀ ++ (b ++ (rel₁ ++ (libMarker ++ (rel₂ ++ (testMarker ++
        (rel₃ ++ (envMarker ++ rel₄)))))))) ++ (r ++ rel₅))
      libMarker libRep =
      (rel₀ ++ (b ++ rel₁)) ++ (libRep ++
        ((rel₂ ++ (testMarker ++ (rel₃ ++ (envMarker ++ rel₄)))) ++ (r ++ rel₅))) :=
    replaceAll_sub libRep (by decide) (by simp [List.append_assoc])
      (noHit_shape3 _ (by decide) hbl (by decide))
      (@notInfix_shape3 libMarker (rel₂ ++ (testMarker ++ (rel₃ ++ (envMarker ++ rel₄))))
        r rel₅ (by decide) (by decide) hrl (by decide))
  have e₄ : replaceAll
      ((rel₀ ++ (b ++ rel₁)) ++ (libRep ++
        ((rel₂ ++ (testMarker ++ (rel₃ ++ (envMarker ++ rel₄)))) ++ (r ++ rel₅))))
      testMarker testRep =
      (rel₀ ++ (b ++ (rel₁ ++ (libRep ++ rel₂)))) ++ (testRep ++
        ((rel₃ ++ (envMarker ++ rel₄)) ++ (r ++ rel₅))) :=
    replaceAll_sub testRep (by decide) (by simp [List.append_assoc])
      (noHit_shape3 _ (by decide) hbt (by decide))
      (@notInfix_shape3 testMarker (rel₃ ++ (envMarker ++ rel₄))
        r rel₅ (by decide) (by decide) hrt (by decide))
  have e₅ : replaceAll
      ((rel₀ ++ (b ++ (rel₁ ++ (libRep ++ rel₂)))) ++ (testRep ++
        ((rel₃ ++ (envMarker ++ rel₄)) ++ (r ++ rel₅))))
      envMarker envRep =
      (rel₀ ++ (b ++ (rel₁ ++ (libRep ++ (rel₂ ++ (testRep ++ rel₃)))))) ++
        (envRep ++ (rel₄ ++ (r ++ rel₅))) :=
    replaceAll_sub envRep (by decide) (by simp [List.append_assoc])
      (noHit_shape3 _ (by decide) hbe (by decide))
      (@notInfix_shape3 envMarker rel₄ r rel₅ (by decide) (by decide) hre (by decide))
  show replaceAll (replaceAll (replaceAll (replaceAll (replaceAll releaseTemplate
      baseMarker b) runtimeMarker r) libMarker libRep) testMarker testRep)
      envMarker envRep = _
  rw [e₁, e₂, e₃, e₄]
  exact e₅

theorem devFree_envT (b r : List Char) (hb : MarkerFree b) (hr : MarkerFree r) :
    ¬ devBaseMarker <:+: devRender devTemplate b r true ∧
    ¬ runtimeMarker <:+: devRender devTemplate b r true ∧
    ¬ includeEnvMarker <:+: devRender devTemplate b r true := by
  have hshape : devRender devTemplate b r true =
      dev₀ ++ (b ++ ((dev₁ ++ (includeEnvRep ++ dev₂)) ++ (r ++ dev₃))) := by
    rw [devRender_envT b r hb.2.2.1 hb.2.2.2.1 hr.2.2.2.1]
    simp [List.append_assoc]
  refine ⟨?_, ?_, ?_⟩ <;> rw [hshape]
  · exact @notInfix_shape5 devBaseMarker dev₀ b (dev₁ ++ (includeEnvRep ++ dev₂)) r dev₃
      (by decide) (by decide) hb.1 (by decide) hr.1 (by decide)
  · exact @notInfix_shape5 runtimeMarker dev₀ b (dev₁ ++ (includeEnvRep ++ dev₂)) r dev₃
      (by decide) (by decide) hb.2.2.1 (by decide) hr.2.2.1 (by decide)
  · exact @notInfix_shape5 includeEnvMarker dev₀ b (dev₁ ++ (includeEnvRep ++ dev₂)) r dev₃
      (by decide) (by decide) hb.2.2.2.1 (by decide) hr.2.2.2.1 (by decide)

theorem devFree_envF (b r : List Char) (hb : MarkerFree b) (hr : MarkerFree r) :
    ¬ devBaseMarker <:+: devRender devTemplate b r false ∧
    ¬ runtimeMarker <:+: devRender devTemplate b r false ∧
    ¬ includeEnvMarker <:+: devRender devTemplate b r false := by
  have hshape : devRender devTemplate b r false =
      dev₀ ++ (b ++ ((dev₁ ++ dev₂tail) ++ (r ++ dev₃))) := by
    rw [devRender_envF b r hb.2.2.1 hb.2.2.2.1 hr.2.2.2.1]
    simp [List.append_assoc]
  refine ⟨?_, ?_, ?_⟩ <;> rw [hshape]
  · exact @notInfix_shape5 devBaseMarker dev₀ b (dev₁ ++ dev₂tail) r dev₃
      (by decide) (by decide) hb.1 (by decide) hr.1 (by decide)
  · exact @notInfix_shape5 runtimeMarker dev₀ b (dev₁ ++ dev₂tail) r dev₃
      (by decide) (by decide) hb.2.2.1 (by decide) hr.2.2.1 (by decide)
  · exact @notInfix_shape5 includeEnvMarker dev₀ b (dev₁ ++ dev₂tail) r dev₃
      (by decide) (by decide) hb.2.2.2.1 (by decide) hr.2.2.2.1 (by decide)

theorem testFree_envT (ti : List Char) (hti : MarkerFree ti) :
    ¬ testBaseMarker <:+: testRender testTemplate ti true ∧
    ¬ includeEnvMarker <:+: testRender testTemplate ti true := by
  have hshape : testRender testTemplate ti true =
      tst₀ ++ (ti ++ (tst₁ ++ (includeEnvRep ++ tst₂))) := by
    rw [testRender_envT ti hti.2.2.2.1]
    simp [List.append_assoc]
  refine ⟨?_, ?_⟩ <;> rw [hshape]
  · exact @notInfix_shape3 testBaseMarker tst₀ ti (tst₁ ++ (includeEnvRep ++ tst₂))
      (by decide) (by decide) hti.2.1 (by decide)
  · exact @notInfix_shape3 includeEnvMarker tst₀ ti (tst₁ ++ (includeEnvRep ++ tst₂))
      (by decide) (by decide) hti.2.2.2.1 (by decide)

theorem testFree_envF (ti : List Char) (hti : MarkerFree ti) :
    ¬ testBaseMarker <:+: testRender testTemplate ti false ∧
    ¬ includeEnvMarker <:+: testRender testTemplate ti false := by
  have hshape : testRender testTemplate ti false =
      tst₀ ++ (ti ++ (tst₁ ++ tst₂tail)) := by
    rw [testRender_envF ti hti.2.2.2.1]
    simp [List.append_assoc]
  refine ⟨?_, ?_⟩ <;> rw [hshape]
  · exact @notInfix_shape3 testBaseMarker tst₀ ti (tst₁ ++ tst₂tail)
      (by decide) (by decide) hti.2.1 (by decide)
  · exact @notInfix_shape3 includeEnvMarker tst₀ ti (tst₁ ++ tst₂tail)
      (by decide) (by decide) hti.2.2.2.1 (by decide)

theorem releaseFree_TT (b r : List Char) (hb : MarkerFree b) (hr : MarkerFree r) :
    ¬ baseMarker <:+: releaseRender releaseTemplate b r true true ∧
    ¬ runtimeMarker <:+: releaseRender releaseTemplate b r true true ∧
    ¬ libMarker <:+: releaseRender releaseTemplate b r true true ∧
    ¬ testMarker <:+: releaseRender releaseTemplate b r true true ∧
    ¬ envMarker <:+: releaseRender releaseTemplate b r true true := by
  have hshape : releaseRender releaseTemplate b r true true =
      rel₀ ++ (b ++ ((rel₁ ++ (libRep ++ (rel₂ ++ (testRep ++ (rel₃ ++ (envRep ++ rel₄)))))) ++
        (r ++ rel₅))) := by
    rw [releaseRender_TT b r hb.2.2.2.2.2.1 hb.2.2.2.2.2.2.1 hb.2.2.2.2.2.2.2 hb.2.2.1]
    simp [List.append_assoc]
  refine ⟨?_, ?_, ?_, ?_, ?_⟩ <;> rw [hshape]
  · exact @notInfix_shape5 baseMarker rel₀ b
      (rel₁ ++ (libRep ++ (rel₂ ++ (testRep ++ (rel₃ ++ (envRep ++ rel₄)))))) r rel₅
      (by decide) (by decide) hb.2.2.2.2.1 (by decide) hr.2.2.2.2.1 (by decide)
  · exact @notInfix_shape5 runtimeMarker rel₀ b
      (rel₁ ++ (libRep ++ (rel₂ ++ (testRep ++ (rel₃ ++ (envRep ++ rel₄)))))) r rel₅
      (by decide) (by decide) hb.2.2.1 (by decide) hr.2.2.1 (by decide)
  · exact @notInfix_shape5 libMarker rel₀ b
      (rel₁ ++ (libRep ++ (rel₂ ++ (testRep ++ (rel₃ ++ (envRep ++ rel₄)))))) r rel₅
      (by decide) (by decide) hb.2.2.2.2.2.1 (by decide) hr.2.2.2.2.2.1 (by decide)
  · exact @notInfix_shape5 testMarker rel₀ b
      (rel₁ ++ (libRep ++ (rel₂ ++ (testRep ++ (rel₃ ++ (envRep ++ rel₄)))))) r rel₅
      (by decide) (by decide) hb.2.2.2.2.2.2.1 (by decide) hr.2.2.2.2.2.2.1 (by decide)
  · exact @notInfix_shape5 envMarker rel₀ b
      (rel₁ ++ (libRep ++ (rel₂ ++ (testRep ++ (rel₃ ++ (envRep ++ rel₄)))))) r rel₅
      (by decide) (by decide) hb.2.2.2.2.2.2.2 (by decide) hr.2.2.2.2.2.2.2 (by decide)

theorem genFree_TT (b r : List Char) (hb : MarkerFree b) (hr : MarkerFree r) :
    ¬ baseMarker <:+: genRender releaseTemplate b r true true ∧
    ¬ runtimeMarker <:+: genRender releaseTemplate b r true true ∧
    ¬ libMarker <:+: genRender releaseTemplate b r true true ∧
    ¬ testMarker <:+: genRender releaseTemplate b r true true ∧
    ¬ envMarker <:+: genRender releaseTemplate b r true true := by
  have hshape : genRender releaseTemplate b r true true =
      rel₀ ++ (b ++ ((rel₁ ++ (libRep ++ (rel₂ ++ (testRep ++ (rel₃ ++ (envRep ++ rel₄)))))) ++
        (r ++ rel₅))) := by
    rw [genRender_TT b r hb.2.2.2.2.2.1 hb.2.2.2.2.2.2.1 hb.2.2.2.2.2.2.2 hb.2.2.1
      hr.2.2.2.2.2.1 hr.2.2.2.2.2.2.1 hr.2.2.2.2.2.2.2]
    simp [List.append_assoc]
  refine ⟨?_, ?_, ?_, ?_, ?_⟩ <;> rw [hshape]
  · exact @notInfix_shape5 baseMarker rel₀ b
      (rel₁ ++ (libRep ++ (rel₂ ++ (testRep ++ (rel₃ ++ (envRep ++ rel₄)))))) r rel₅
      (by decide) (by decide) hb.2.2.2.2.1 (by decide) hr.2.2.2.2.1 (by decide)
  · exact @notInfix_shape5 runtimeMarker rel₀ b
      (rel₁ ++ (libRep ++ (rel₂ ++ (testRep ++ (rel₃ ++ (envRep ++ rel₄)))))) r rel₅
      (by decide) (by decide) hb.2.2.1 (by decide) hr.2.2.1 (by decide)
  · exact @notInfix_shape5 libMarker rel₀ b
      (rel₁ ++ (libRep ++ (rel₂ ++ (testRep ++ (rel₃ ++ (envRep ++ rel₄)))))) r rel₅
      (by decide) (by decide) hb.2.2.2.2.2.1 (by decide) hr.2.2.2.2.2.1 (by decide)
  · exact @notInfix_shape5 testMarker rel₀ b
      (rel₁ ++ (libRep ++ (rel₂ ++ (testRep ++ (rel₃ ++ (envRep ++ rel₄)))))) r rel₅
      (by decide) (by decide) hb.2.2.2.2.2.2.1 (by decide) hr.2.2.2.2.2.2.1 (by decide)
  · exact @notInfix_shape5 envMarker rel₀ b
      (rel₁ ++ (libRep ++ (rel₂ ++ (testRep ++ (rel₃ ++ (envRep ++ rel₄)))))) r rel₅
      (by decide) (by decide) hb.2.2.2.2.2.2.2 (by decide) hr.2.2.2.2.2.2.2 (by decide)

theorem releaseKeepsMarkers_FF (b r : List Char) (hbr : ¬ runtimeMarker <:+: b) :
    libMarker <:+: releaseRender releaseTemplate b r false false ∧
    testMarker <:+: releaseRender releaseTemplate b r false false ∧
    envMarker <:+: releaseRender releaseTemplate b r false false := by
  rw [releaseRender_FF b r hbr]
  refine ⟨⟨rel₀ ++ (b ++ rel₁), (rel₂ ++ (testMarker ++ (rel₃ ++ (envMarker ++ rel₄)))) ++
      (r ++ rel₅), by simp [List.append_assoc]⟩,
    ⟨rel₀ ++ (b ++ (rel₁ ++ (libMarker ++ rel₂))), (rel₃ ++ (envMarker ++ rel₄)) ++
      (r ++ rel₅), by simp [List.append_assoc]⟩,
    ⟨rel₀ ++ (b ++ (rel₁ ++ (libMarker ++ (rel₂ ++ (testMarker ++ rel₃))))), rel₄ ++
      (r ++ rel₅), by simp [List.append_assoc]⟩⟩

/-- Claim C2 (amended): for the modelled embedded templates and parameter
strings containing no marker token, the dev and test renders contain none of
their own marker tokens whether or not `.env` is present, and the
release and gen renders contain none when `lib.rs` and `.env` are both
present; when both are absent, the release and gen renders keep the
gated copy, test and env markers of the template (`#LIB_RS`, `#TEST`, `#ENV`)
in the output, and the two renders agree. -/
theorem C2_rendered_markers (b r ti : List Char)
    (hb : MarkerFree b) (hr : MarkerFree r) (hti : MarkerFree ti) :
    (¬ devBaseMarker <:+: devRender devTemplate b r true ∧
     ¬ runtimeMarker <:+: devRender devTemplate b r true ∧
     ¬ includeEnvMarker <:+: devRender devTemplate b r true) ∧
    (¬ devBaseMarker <:+: devRender devTemplate b r false ∧
     ¬ runtimeMarker <:+: devRender devTemplate b r false ∧
     ¬ includeEnvMarker <:+: devRender devTemplate b r false) ∧
    (¬ testBaseMarker <:+: testRender testTemplate ti true ∧
     ¬ includeEnvMarker <:+: testRender testTemplate ti true) ∧
    (¬ testBaseMarker <:+: testRender testTemplate ti false ∧
     ¬ includeEnvMarker <:+: testRender testTemplate ti false) ∧
    (¬ baseMarker <:+: releaseRender releaseTemplate b r true true ∧
     ¬ runtimeMarker <:+: releaseRender releaseTemplate b r true true ∧
     ¬ libMarker <:+: releaseRender releaseTemplate b r true true ∧
     ¬ testMarker <:+: releaseRender releaseTemplate b r true true ∧
     ¬ envMarker <:+: releaseRender releaseTemplate b r true true) ∧
    (¬ baseMarker <:+: genRender releaseTemplate b r true true ∧
     ¬ runtimeMarker <:+: genRender releaseTemplate b r true true ∧
     ¬ libMarker <:+: genRender releaseTemplate b r true true ∧
     ¬ testMarker <:+: genRender releaseTemplate b r true true ∧
     ¬ envMarker <:+: genRender releaseTemplate b r true true) ∧
    (libMarker <:+: releaseRender releaseTemplate b r false false ∧
     testMarker <:+: releaseRender releaseTemplate b r false false ∧
     envMarker <:+: releaseRender releaseTemplate b r false false) ∧
    genRender releaseTemplate b r false false = releaseRender releaseTemplate b r false false :=
  ⟨devFree_envT b r hb hr, devFree_envF b r hb hr, testFree_envT ti hti,
   testFree_envF ti hti, releaseFree_TT b r hb hr, genFree_TT b r hb hr,
   releaseKeepsMarkers_FF b r hb.2.2.1, rfl⟩

/-- Witness for C2_rendered_markers at concrete marker-free parameters. -/
theorem C2_rendered_markers_witness :
    (¬ devBaseMarker <:+: devRender devTemplate "quay.io/roche/b:1".toList
        "quay.io/roche/r:2".toList true ∧
     ¬ runtimeMarker <:+: devRender devTemplate "quay.io/roche/b:1".toList
        "quay.io/roche/r:2".toList true ∧
     ¬ includeEnvMarker <:+: devRender devTemplate "quay.io/roche/b:1".toList
        "quay.io/roche/r:2".toList true) ∧
    (¬ devBaseMarker <:+: devRender devTemplate "quay.io/roche/b:1".toList
        "quay.io/roche/r:2".toList false ∧
     ¬ runtimeMarker <:+: devRender devTemplate "quay.io/roche/b:1".toList
        "quay.io/roche/r:2".toList false ∧
     ¬ includeEnvMarker <:+: devRender devTemplate "quay.io/roche/b:1".toList
        "quay.io/roche/r:2".toList false) ∧
    (¬ testBaseMarker <:+: testRender testTemplate "quay.io/roche/t:3".toList true ∧
     ¬ includeEnvMarker <:+: testRender testTemplate "quay.io/roche/t:3".toList true) ∧
    (¬ testBaseMarker <:+: testRender testTemplate "quay.io/roche/t:3".toList false ∧
     ¬ includeEnvMarker <:+: testRender testTemplate "quay.io/roche/t:3".toList false) ∧
    (¬ baseMarker <:+: releaseRender releaseTemplate "quay.io/roche/b:1".toList
        "quay.io/roche/r:2".toList true true ∧
     ¬ runtimeMarker <:+: releaseRender releaseTemplate "quay.io/roche/b:1".toList
        "quay.io/roche/r:2".toList true true ∧
     ¬ libMarker <:+: releaseRender releaseTemplate "quay.io/roche/b:1".toList
        "quay.io/roche/r:2".toList true true ∧
     ¬ testMarker <:+: releaseRender releaseTemplate "quay.io/roche/b:1".toList
        "quay.io/roche/r:2".toList true true ∧
     ¬ envMarker <:+: releaseRender releaseTemplate "quay.io/roche/b:1".toList
        "quay.io/roche/r:2".toList true true) ∧
    (¬ baseMarker <:+: genRender releaseTemplate "quay.io/roche/b:1".toList
        "quay.io/roche/r:2".toList true true ∧
     ¬ runtimeMarker <:+: genRender releaseTemplate "quay.io/roche/b:1".toList
        "quay.io/roche/r:2".toList true true ∧
     ¬ libMarker <:+: genRender releaseTemplate "quay.io/roche/b:1".toList
        "quay.io/roche/r:2".toList true true ∧
     ¬ testMarker <:+: genRender releaseTemplate "quay.io/roche/b:1".toList
        "quay.io/roche/r:2".toList true true ∧
     ¬ envMarker <:+: genRender releaseTemplate "quay.io/roche/b:1".toList
        "quay.io/roche/r:2".toList true true) ∧
    (libMarker <:+: releaseRender releaseTemplate "quay.io/roche/b:1".toList
        "quay.io/roche/r:2".toList false false ∧
     testMarker <:+: releaseRender releaseTemplate "quay.io/roche/b:1".toList
        "quay.io/roche/r:2".toList false false ∧
     envMarker <:+: releaseRender releaseTemplate "quay.io/roche/b:1".toList
        "quay.io/roche/r:2".toList false false) ∧
    genRender releaseTemplate "quay.io/roche/b:1".toList "quay.io/roche/r:2".toList
        false false =
      releaseRender releaseTemplate "quay.io/roche/b:1".toList "quay.io/roche/r:2".toList
        false false :=
  C2_rendered_markers "quay.io/roche/b:1".toList "quay.io/roche/r:2".toList
    "quay.io/roche/t:3".toList (by decide) (by decide) (by decide)

/-- Counterexample to C2 as stated: with `lib.rs` absent, the release render
leaves the `#LIB_RS` marker in the output, for a template that contains it. -/
theorem C2_marker_left_counterexample :
    libMarker <:+:
      releaseRender "FROM BASE_IMAGE\n#LIB_RS\n".toList "b".toList "r".toList false false := by
  decide

/-- Claim C8 (amended): with `.env` absent, the dev and test renders delete
each spaced include-env occurrence of the modelled templates — the COPY line
closes up over the removed operand, leaving no marker and no dangling
directive — while the release and gen flows leave their `#ENV` marker in
place. -/
theorem C8_env_absent (b r ti : List Char)
    (hb : MarkerFree b) (hr : MarkerFree r) (hti : MarkerFree ti) :
    (devRender devTemplate b r false =
       (dev₀ ++ (b ++ dev₁)) ++ (dev₂tail ++ (r ++ dev₃)) ∧
     ¬ includeEnvMarker <:+: devRender devTemplate b r false ∧
     ¬ includeEnvSpaceMarker <:+: devRender devTemplate b r false) ∧
    (testRender testTemplate ti false = (tst₀ ++ (ti ++ tst₁)) ++ tst₂tail ∧
     ¬ includeEnvMarker <:+: testRender testTemplate ti false) ∧
    (envMarker <:+: releaseRender releaseTemplate b r false false ∧
     envMarker <:+: genRender releaseTemplate b r false false) := by
  have hdev := devFree_envF b r hb hr
  refine ⟨⟨devRender_envF b r hb.2.2.1 hb.2.2.2.1 hr.2.2.2.1, hdev.2.2, ?_⟩,
    ⟨testRender_envF ti hti.2.2.2.1, (testFree_envF ti hti).2⟩, ?_, ?_⟩
  · exact fun h => hdev.2.2 (List.IsInfix.trans (by decide) h)
  · exact (releaseKeepsMarkers_FF b r hb.2.2.1).2.2
  · show envMarker <:+: releaseRender releaseTemplate b r false false
    exact (releaseKeepsMarkers_FF b r hb.2.2.1).2.2

/-- Witness for C8_env_absent at concrete marker-free parameters. -/
theorem C8_env_absent_witness :
    (devRender devTemplate "quay.io/app/b:1".toList "quay.io/app/r:2".toList false =
       (dev₀ ++ ("quay.io/app/b:1".toList ++ dev₁)) ++
         (dev₂tail ++ ("quay.io/app/r:2".toList ++ dev₃)) ∧
     ¬ includeEnvMarker <:+: devRender devTemplate "quay.io/app/b:1".toList
        "quay.io/app/r:2".toList false ∧
     ¬ includeEnvSpaceMarker <:+: devRender devTemplate "quay.io/app/b:1".toList
        "quay.io/app/r:2".toList false) ∧
    (testRender testTemplate "quay.io/app/t:3".toList false =
       (tst₀ ++ ("quay.io/app/t:3".toList ++ tst₁)) ++ tst₂tail ∧
     ¬ includeEnvMarker <:+: testRender testTemplate "quay.io/app/t:3".toList false) ∧
    (envMarker <:+: releaseRender releaseTemplate "quay.io/app/b:1".toList
        "quay.io/app/r:2".toList false false ∧
     envMarker <:+: genRender releaseTemplate "quay.io/app/b:1".toList
        "quay.io/app/r:2".toList false false) :=
  C8_env_absent "quay.io/app/b:1".toList "quay.io/app/r:2".toList
    "quay.io/app/t:3".toList (by decide) (by decide) (by decide)

/-- Counterexample to C8 as stated: an include-env marker not followed by a
space survives the dev render with `.env` absent, since only the marker plus
trailing space is deleted. -/
theorem C8_marker_survives_counterexample :
    includeEnvMarker <:+:
      devRender "COPY INCLUDE_ENV\n".toList "b".toList "r".toList false := by
  decide

/-! Identity resolution (src/src/main.rs lines 82-157).  The two engine
probes are modelled on an environment record carrying the `DOCKER_USERNAME`
variable, whether each engine binary can be spawned, and the textual output
each spawned engine produces.  `process::exit(1)` is modelled as
`Except.error 1`; the events record which engines were spawned and what was
printed. -/

/-- Split a character list at every character satisfying `p`, keeping empty
fields (the splitting characters are dropped). -/
def splitBy (p : Char → Bool) : List Char → List (List Char)
  | [] => [[]]
  | c :: cs =>
    let r := splitBy p cs
    if p c then [] :: r
    else
      match r with
      | [] => [[c]]
      | h :: t => (c :: h) :: t

/-- Remove one trailing carriage return. -/
def stripCR (l : List Char) : List Char :=
  if l.getLast? = some '\r' then l.dropLast else l

/-- Semantics of the Rust `str::lines`: split at newlines, drop the one
trailing empty field of a terminated final line, and strip the carriage
return a `\r\n` terminator leaves at the end of a line. -/
def rustLines (s : String) : List String :=
  let parts := splitBy (fun c => c = '\n') s.toList
  if parts.getLast? = some [] then (parts.dropLast.map stripCR).map String.mk
  else (parts.dropLast.map stripCR).map String.mk ++ [String.mk (parts.getLast?.getD [])]

/-- Semantics of the Rust `str::split_whitespace`: maximal whitespace-free
tokens, that is the non-empty fields of a split at every whitespace. -/
def splitWsTokens (l : String) : List String :=
  ((splitBy (fun c => c.isWhitespace) l.toList).filter (fun t => t ≠ [])).map String.mk

/-- Mirrors `line.split_whitespace().last().unwrap_or_default()`. -/
def lastWsToken (l : String) : String :=
  (splitWsTokens l).getLast?.getD ""

/-- Mirrors `line.contains("Username")`. -/
def hasUsername (l : String) : Bool :=
  decide ("Username".toList <:+: l.toList)

/-- The username-scanning loop of getdockerlogin (lines 105-115): each line
containing "Username" overwrites the candidate with its last token. -/
def parseDockerUsername (out : String) : String :=
  (rustLines out).foldl (fun acc line => if hasUsername line then lastWsToken line else acc) ""

def noUsernameVarMsg : String :=
  "DOCKER_USERNAME environment variable not found trying to docker cli"
def dockerSpawnFailMsg : String := "could not spawn docker"  -- code text has a contraction
def podmanSpawnFailMsg : String := "No Username found with docker or podman"
def cannotFindMsg : String :=
  "Cannot find functions.rs in the current folder or in src subfolder. Exiting"
def cannotFindLibMsg : String := "Cannot find lib.rs in the src folder. Exiting"
def dockerfileExistsMsg : String :=
  "Dockerfile already exists refusing to overwrite it. Please delete it and try again."

/-- Observable effects of a flow. -/
inductive Ev where
  | spawnDocker
  | spawnPodman
  | spawnBuild
  | chdirSrc
  | printMsg (msg : String)
  | writeDockerfile
deriving DecidableEq, Repr

/-- The process environment the engine probes see. -/
structure EngineEnv where
  dockerUsernameVar : Option String
  dockerSpawnOk : Bool
  dockerInfoOut : String
  podmanSpawnOk : Bool
  podmanOut : String
  buildSpawnOk : Bool
deriving DecidableEq, Repr

/-- getdockerlogin, src/src/main.rs lines 82-121: the environment variable
wins outright; otherwise `docker info` is spawned (spawn failure exits 1)
and its output scanned for the last Username line. -/
def getdockerlogin (e : EngineEnv) : List Ev × Except Nat (Option String) :=
  match e.dockerUsernameVar with
  | some v => ([], .ok (some v))
  | none =>
    if e.dockerSpawnOk then
      let u := parseDockerUsername e.dockerInfoOut
      ([.printMsg noUsernameVarMsg, .spawnDocker], .ok (if u = "" then none else some u))
    else
      ([.printMsg noUsernameVarMsg, .spawnDocker, .printMsg dockerSpawnFailMsg], .error 1)

/-- getpodmanlogin, src/src/main.rs lines 130-157: `podman login --get-login`
is spawned (spawn failure exits 1) and the first output line taken. -/
def getpodmanlogin (e : EngineEnv) : List Ev × Except Nat (Option String) :=
  if e.podmanSpawnOk then
    let u := (rustLines e.podmanOut).head?.getD ""
    ([.spawnPodman], .ok (if u = "" then none else some u))
  else
    ([.spawnPodman, .printMsg podmanSpawnFailMsg], .error 1)

/-- getlogin, src/src/main.rs lines 123-128. -/
def getlogin (e : EngineEnv) : List Ev × Except Nat (Option String) :=
  match getdockerlogin e with
  | (evs, .error c) => (evs, .error c)
  | (evs, .ok (some u)) => (evs, .ok (some u))
  | (evs, .ok none) =>
    let p := getpodmanlogin e
    (evs ++ p.1, p.2)

/-- The base label of generateimagetag (lines 60-68): the last piece of the
split current-directory path, or the one before it when the last is "src". -/
def baseLabel (pieces : List String) : String :=
  let dir := pieces.getD (pieces.length - 1) ""
  if dir = "src" then pieces.getD (pieces.length - 2) "" else dir

/-- generateimagetag, src/src/main.rs lines 55-80, given the resolved login;
both arms build `Some`. -/
def generateimagetag (pieces : List String) (login : Option String)
    (buildtype : String) : Option String :=
  match login with
  | some l => some (l ++ "/" ++ buildtype ++ baseLabel pieces)
  | none => some (buildtype ++ baseLabel pieces)

/-- Tag-flag resolution (lines 346, 434, 512): `format!("-t{}", flag.unwrap_or(""))`. -/
def resolveTagArg (tagFlag : Option String) : String :=
  "-t" ++ tagFlag.getD ""

/-- Image resolution: explicit flag, else environment variable, else the
hard-coded default (lines 175-182 with 362-367, 450-452, 528-533, 669-674). -/
def resolveImage (flag envVar : Option String) (dflt : String) : String :=
  flag.getD (envVar.getD dflt)

def devBuildImageDefault : String := "quay.io/roche/dev-default:1.4.0"
def testBuildImageDefault : String := "quay.io/roche/dev-default:1.4.0"
def releaseBuildImageDefault : String := "quay.io/roche/default:1.4.0"
def runtimeImageDefault : String := "quay.io/roche/alpine-libgcc:3.12"

/-- The four configuration environment variables (lines 175-182). -/
structure EnvVars where
  devBuildImageVar : Option String
  testBuildImageVar : Option String
  releaseBuildImageVar : Option String
  runtimeImageVar : Option String
deriving DecidableEq, Repr

/-- What a directory holds, as probed by the flows. -/
structure Dir where
  hasFunctions : Bool
  hasLib : Bool
  hasEnvFile : Bool
deriving DecidableEq, Repr

/-- The working directory and its `src` subdirectory. -/
structure FS where
  cwd : Dir
  srcSub : Dir
deriving DecidableEq, Repr

structure BuildArgs where
  buildimage : Option String
  runtimeimage : Option String
  tag : Option String
deriving DecidableEq, Repr

structure TestArgs where
  libtestimage : Option String
  tag : Option String
deriving DecidableEq, Repr

structure GenArgs where
  buildimage : Option String
  runtimeimage : Option String
deriving DecidableEq, Repr

/-- Observable outcome of a build flow: events in order, the exit code of a
`process::exit`/panic (none when the flow runs to the end), the `-t` tag
argument passed to the build, and the rendered Dockerfile piped to it. -/
structure FlowOut where
  events : List Ev
  exit : Option Nat
  tagArg : Option String
  sent : Option (List Char)
deriving DecidableEq, Repr

/-- The entrypoint check shared verbatim by the build, test and release
subcommands (lines 326-343, 408-425, 492-509): look for functions.rs in the
working directory, else under src (relocating there), else print and exit 1. -/
def entryCheck (fs : FS) (pieces : List String) :
    Except (List Ev × Nat) (List Ev × Dir × List String) :=
  if fs.cwd.hasFunctions then .ok ([], fs.cwd, pieces)
  else if fs.srcSub.hasFunctions then .ok ([.chdirSrc], fs.srcSub, pieces ++ ["src"])
  else .error ([.printMsg cannotFindMsg], 1)

/-- Tag resolution for one flow: the `-t<flag>` string, or, when that is bare
`-t`, the synthesized tag via getlogin and generateimagetag; the impossible
`None` arm of generateimagetag is the panic, modelled as exit 101. -/
def resolveTag (eng : EngineEnv) (pieces : List String) (buildtype : String)
    (tagFlag : Option String) : List Ev × Except Nat String :=
  let tag0 := resolveTagArg tagFlag
  if tag0 = "-t" then
    match getlogin eng with
    | (evs, .error c) => (evs, .error c)
    | (evs, .ok lg) =>
      match generateimagetag pieces lg buildtype with
      | some s => (evs, .ok ("-t" ++ s))
      | none => (evs, .error 101)
  else ([], .ok tag0)

/-- Spawning `docker build` and piping the rendered Dockerfile (the shared
tail of the build, test and release subcommands). -/
def runBuild (evs : List Ev) (eng : EngineEnv) (tag : String)
    (rendered : List Char) : FlowOut :=
  if eng.buildSpawnOk then
    ⟨evs ++ [.spawnBuild], none, some tag, some rendered⟩
  else
    ⟨evs ++ [.spawnBuild, .printMsg dockerSpawnFailMsg], some 1, some tag, none⟩

/-- The build (dev) subcommand after the entrypoint check (lines 345-404). -/
def devAfterCheck (env : EnvVars) (eng : EngineEnv) (a : BuildArgs)
    (dir : Dir) (pieces : List String) (evs : List Ev) : FlowOut :=
  match resolveTag eng pieces "dev-" a.tag with
  | (evs₂, .error c) => ⟨evs ++ evs₂, some c, none, none⟩
  | (evs₂, .ok tag) =>
    let bi := resolveImage a.buildimage env.devBuildImageVar devBuildImageDefault
    let ri := resolveImage a.runtimeimage env.runtimeImageVar runtimeImageDefault
    runBuild (evs ++ evs₂) eng tag (devRender devTemplate bi.toList ri.toList dir.hasEnvFile)

/-- The build (dev) subcommand (lines 326-404). -/
def devFlow (env : EnvVars) (eng : EngineEnv) (fs : FS) (pieces : List String)
    (a : BuildArgs) : FlowOut :=
  match entryCheck fs pieces with
  | .error (evs, c) => ⟨evs, some c, none, none⟩
  | .ok (evs, dir, pcs) => devAfterCheck env eng a dir pcs evs

/-- The test subcommand after the entrypoint check (lines 426-488): the
lib.rs check runs in the possibly relocated directory before anything else. -/
def testAfterCheck (env : EnvVars) (eng : EngineEnv) (a : TestArgs)
    (dir : Dir) (pieces : List String) (evs : List Ev) : FlowOut :=
  if dir.hasLib then
    match resolveTag eng pieces "test-" a.tag with
    | (evs₂, .error c) => ⟨evs ++ evs₂, some c, none, none⟩
    | (evs₂, .ok tag) =>
      let ti := resolveImage a.libtestimage env.testBuildImageVar testBuildImageDefault
      runBuild (evs ++ evs₂) eng tag (testRender testTemplate ti.toList dir.hasEnvFile)
  else ⟨evs ++ [.printMsg cannotFindLibMsg], some 1, none, none⟩

/-- The test subcommand (lines 408-488). -/
def testFlow (env : EnvVars) (eng : EngineEnv) (fs : FS) (pieces : List String)
    (a : TestArgs) : FlowOut :=
  match entryCheck fs pieces with
  | .error (evs, c) => ⟨evs, some c, none, none⟩
  | .ok (evs, dir, pcs) => testAfterCheck env eng a dir pcs evs

/-- The release subcommand after the entrypoint check (lines 511-581). -/
def releaseAfterCheck (env : EnvVars) (eng : EngineEnv) (a : BuildArgs)
    (dir : Dir) (pieces : List String) (evs : List Ev) : FlowOut :=
  match resolveTag eng pieces "" a.tag with
  | (evs₂, .error c) => ⟨evs ++ evs₂, some c, none, none⟩
  | (evs₂, .ok tag) =>
    let bi := resolveImage a.buildimage env.releaseBuildImageVar releaseBuildImageDefault
    let ri := resolveImage a.runtimeimage env.runtimeImageVar runtimeImageDefault
    runBuild (evs ++ evs₂) eng tag
      (releaseRender releaseTemplate bi.toList ri.toList dir.hasLib dir.hasEnvFile)

/-- The release subcommand (lines 491-581). -/
def releaseFlow (env : EnvVars) (eng : EngineEnv) (fs : FS) (pieces : List String)
    (a : BuildArgs) : FlowOut :=
  match entryCheck fs pieces with
  | .error (evs, c) => ⟨evs, some c, none, none⟩
  | .ok (evs, dir, pcs) => releaseAfterCheck env eng a dir pcs evs

/-- Outcome of the gen subcommand: events, exit code, and the resulting
content after the invocation. -/
structure GenOut where
  events : List Ev
  exit : Option Nat
  dockerfile : Option (List Char)
deriving DecidableEq, Repr

/-- The gen subcommand (lines 667-700): render, then write `Dockerfile` only
when none exists; an existing file is kept byte-for-byte and a warning
printed, with no error exit. -/
def genFlow (env : EnvVars) (d : Dir)
    (existing : Option (List Char)) (a : GenArgs) : GenOut :=
  let bi := resolveImage a.buildimage env.releaseBuildImageVar releaseBuildImageDefault
  let ri := resolveImage a.runtimeimage env.runtimeImageVar runtimeImageDefault
  let rendered := genRender releaseTemplate bi.toList ri.toList d.hasLib d.hasEnvFile
  match existing with
  | none => ⟨[.writeDockerfile], none, some rendered⟩
  | some c => ⟨[.printMsg dockerfileExistsMsg], none, some c⟩

/-! Specification-side restatement of identity resolution, worded as the
wording of the spec ("last line containing a Username marker") and not as the
overwrite loop of the code. -/

/-- The last line of the engine output that contains "Username". -/
def specUsernameLine (out : String) : Option String :=
  ((rustLines out).filter (fun l => hasUsername l)).getLast?

/-- The last whitespace-delimited token of that line, or empty. -/
def specDockerUsername (out : String) : String :=
  ((specUsernameLine out).map lastWsToken).getD ""

/-- Identity per the claim: the token extracted from docker if non-empty,
else the first podman output line if non-empty, else none. -/
def specIdentity (dockerOut podmanOut : String) : Option String :=
  let d := specDockerUsername dockerOut
  if d ≠ "" then some d
  else
    let p := (rustLines podmanOut).head?.getD ""
    if p = "" then none else some p

theorem foldl_username (ls : List String) (acc : String) :
    ls.foldl (fun a line => if hasUsername line then lastWsToken line else a) acc =
      (((ls.filter (fun l => hasUsername l)).getLast?).map lastWsToken).getD acc := by
  induction ls using List.reverseRecOn with
  | nil => rfl
  | append_singleton xs x ih =>
    rw [List.foldl_append, List.filter_append]
    by_cases hx : hasUsername x
    · simp [hx, List.getLast?_concat]
    · simp only [List.foldl, hx, Bool.false_eq_true, if_false, List.filter,
        List.append_nil]
      exact ih

/-- The overwrite loop computes exactly the last token of the last matching line. -/
theorem parseDockerUsername_eq_spec (out : String) :
    parseDockerUsername out = specDockerUsername out :=
  foldl_username (rustLines out) ""

/-- Counterexample to C1 as stated: with no environment override, a docker
spawn failure terminates the process (exit 1) even though podman could be
spawned and reports a login. -/
theorem C1_docker_spawn_fatal_counterexample :
    (getlogin ⟨none, false, "", true, "alice", true⟩).2 = Except.error 1 ∧
    (⟨none, false, "", true, "alice", true⟩ : EngineEnv).podmanSpawnOk = true :=
  ⟨rfl, rfl⟩

/-- Claim C1 (amended): identity resolution is fatal on any spawn failure it
reaches: it exits exactly when no override is set and either docker cannot
be spawned (podman is then never tried), or docker spawns but reports no
username and podman cannot be spawned. -/
theorem C1_spawn_fatality (e : EngineEnv) :
    (∃ c, (getlogin e).2 = Except.error c) ↔
      e.dockerUsernameVar = none ∧
        (e.dockerSpawnOk = false ∨
          (parseDockerUsername e.dockerInfoOut = "" ∧ e.podmanSpawnOk = false)) := by
  obtain ⟨du, dso, dio, pso, po, bso⟩ := e
  cases du with
  | some v => simp [getlogin, getdockerlogin]
  | none =>
    cases dso with
    | false => simp [getlogin, getdockerlogin]
    | true =>
      by_cases hd : parseDockerUsername dio = ""
      · cases pso with
        | false => simp [getlogin, getdockerlogin, getpodmanlogin, hd]
        | true =>
          simp only [getlogin, getdockerlogin, getpodmanlogin, hd, if_true, if_pos rfl]
          by_cases hp : (rustLines po).head?.getD "" = "" <;> simp [hp, hd]
      · simp [getlogin, getdockerlogin, hd]

/-- Claim C5: identity resolution returns the environment override when set;
otherwise, with both engines spawnable, it returns the last whitespace token
of the last docker Username line when non-empty, else the first podman output
line when non-empty, and none exactly when both probes are empty. -/
theorem C5_identity_resolution :
    (∀ (v dio po : String) (dso pso bso : Bool),
       getlogin ⟨some v, dso, dio, pso, po, bso⟩ = ([], Except.ok (some v))) ∧
    (∀ (dio po : String) (bso : Bool),
       (getlogin ⟨none, true, dio, true, po, bso⟩).2 = Except.ok (specIdentity dio po)) ∧
    (∀ dio po : String,
       specIdentity dio po = none ↔
         specDockerUsername dio = "" ∧ (rustLines po).head?.getD "" = "") := by
  refine ⟨fun v dio po dso pso bso => rfl, fun dio po bso => ?_, fun dio po => ?_⟩
  · by_cases hd : parseDockerUsername dio = ""
    · have hd' : specDockerUsername dio = "" := parseDockerUsername_eq_spec dio ▸ hd
      by_cases hp : (rustLines po).head?.getD "" = "" <;>
        simp [getlogin, getdockerlogin, getpodmanlogin, specIdentity, hd, hd', hp]
    · have hd' : specDockerUsername dio ≠ "" := parseDockerUsername_eq_spec dio ▸ hd
      simp [getlogin, getdockerlogin, specIdentity, hd, hd',
        parseDockerUsername_eq_spec dio]
  · by_cases hd : specDockerUsername dio = ""
    · by_cases hp : (rustLines po).head?.getD "" = "" <;> simp [specIdentity, hd, hp]
    · simp [specIdentity, hd]

theorem string_eq_empty_of_length {s : String} (h : s.length = 0) : s = "" := by
  cases s with
  | mk d =>
    cases d with
    | nil => rfl
    | cons c cs => simp [String.length] at h

/-- Counterexample to C3 as stated: at working directory "/" (split pieces
["", ""]), release kind (empty prefix) and no identity, the synthesized tag
is the empty string. -/
theorem C3_empty_tag_counterexample : generateimagetag ["", ""] none "" = some "" := rfl

/-- Claim C3 (amended): the synthesized tag is `identity/prefix ++ label`
when an identity is present and `prefix ++ label` otherwise; it is empty
exactly when the identity is absent and the kind prefix and base label are
both empty (so it is never empty for the dev and test kinds, nor whenever
the base label is non-empty). -/
theorem C3_tag_synthesis :
    (∀ (pieces : List String) (l bt : String),
       generateimagetag pieces (some l) bt = some (l ++ "/" ++ bt ++ baseLabel pieces)) ∧
    (∀ (pieces : List String) (bt : String),
       generateimagetag pieces none bt = some (bt ++ baseLabel pieces)) ∧
    (∀ (pieces : List String) (lg : Option String) (bt t : String),
       generateimagetag pieces lg bt = some t →
         (t = "" ↔ lg = none ∧ bt = "" ∧ baseLabel pieces = "")) := by
  refine ⟨fun _ _ _ => rfl, fun _ _ => rfl, ?_⟩
  intro pieces lg bt t h
  cases lg with
  | some l =>
    simp only [generateimagetag, Option.some.injEq] at h
    subst h
    constructor
    · intro he
      have hlen := congrArg String.length he
      rw [String.length_append, String.length_append, String.length_append] at hlen
      have hone : ("/" : String).length = 1 := rfl
      have h0 : ("" : String).length = 0 := rfl
      rw [hone, h0] at hlen
      omega
    · rintro ⟨hlg, -, -⟩
      cases hlg
  | none =>
    simp only [generateimagetag, Option.some.injEq] at h
    subst h
    constructor
    · intro he
      have hlen := congrArg String.length he
      rw [String.length_append] at hlen
      have h0 : ("" : String).length = 0 := rfl
      rw [h0] at hlen
      exact ⟨rfl, string_eq_empty_of_length (by omega),
        string_eq_empty_of_length (by omega)⟩
    · rintro ⟨-, hbt, hbase⟩
      rw [hbt, hbase]
      rfl

/-- Witness for C3_tag_synthesis at a concrete input: the dev tag for
identity "alice" in directory myapp. -/
theorem C3_tag_synthesis_witness :
    (("alice/dev-myapp" : String) = "" ↔
      (some "alice" : Option String) = none ∧ ("dev-" : String) = "" ∧
        baseLabel ["home", "u", "myapp"] = "") :=
  C3_tag_synthesis.2.2 ["home", "u", "myapp"] (some "alice") "dev-" "alice/dev-myapp" rfl

/-- Claim C4: the base label is the final path segment, or the parent
segment when the final segment is the conventional "src". -/
theorem C4_base_label :
    (∀ (xs : List String) (x : String), x ≠ "src" → baseLabel (xs ++ [x]) = x) ∧
    (∀ (xs : List String) (y : String), baseLabel (xs ++ [y, "src"]) = y) := by
  constructor
  · intro xs x hx
    have hlast : (xs ++ [x]).getD ((xs ++ [x]).length - 1) "" = x := by
      rw [List.getD_eq_getElem?_getD, List.length_append]
      simp only [List.length_singleton, Nat.add_sub_cancel]
      rw [List.getElem?_append_right le_rfl]
      simp
    simp only [baseLabel, hlast]
    rw [if_neg hx]
  · intro xs y
    have hlen : (xs ++ [y, "src"]).length = xs.length + 2 := by
      rw [List.length_append]; rfl
    have hlast : (xs ++ [y, "src"]).getD ((xs ++ [y, "src"]).length - 1) "" = "src" := by
      rw [List.getD_eq_getElem?_getD, hlen]
      have : xs.length + 2 - 1 = xs.length + 1 := rfl
      rw [this, List.getElem?_append_right (by omega)]
      simp
    have hparent : (xs ++ [y, "src"]).getD ((xs ++ [y, "src"]).length - 2) "" = y := by
      rw [List.getD_eq_getElem?_getD, hlen]
      have : xs.length + 2 - 2 = xs.length := rfl
      rw [this, List.getElem?_append_right le_rfl]
      simp
    simp only [baseLabel, hlast, hparent]
    simp

/-- Witness for C4_base_label: directory /home/u/myapp and its src
subdirectory both label the image "myapp". -/
theorem C4_base_label_witness :
    baseLabel (["home", "u"] ++ ["myapp"]) = "myapp" ∧
    baseLabel (["home", "u"] ++ ["myapp", "src"]) = "myapp" :=
  ⟨C4_base_label.1 ["home", "u"] "myapp" (by decide),
   C4_base_label.2 ["home", "u"] "myapp"⟩

/-- Claim C9 (amended): image parameters resolve flag over environment
variable over hard-coded default, the defaults are non-empty, and the
resolved value is non-empty whenever the source it came from is. -/
theorem C9_image_resolution :
    (∀ (v : String) (e : Option String) (d : String), resolveImage (some v) e d = v) ∧
    (∀ e d : String, resolveImage none (some e) d = e) ∧
    (∀ d : String, resolveImage none none d = d) ∧
    devBuildImageDefault ≠ "" ∧ testBuildImageDefault ≠ "" ∧
    releaseBuildImageDefault ≠ "" ∧ runtimeImageDefault ≠ "" := by
  refine ⟨fun _ _ _ => rfl, fun _ _ => rfl, fun _ => rfl, ?_, ?_, ?_, ?_⟩ <;> decide

/-- Counterexample to C9 as stated: an explicitly supplied empty flag makes
the resolved image the empty string, overriding a non-empty environment
variable and default. -/
theorem C9_empty_flag_counterexample :
    resolveImage (some "") (some "quay.io/roche/x:1") runtimeImageDefault = "" := rfl

/-- Claim C10: an empty tag flag behaves exactly like an omitted one (both
resolve to bare "-t" and trigger synthesis, with identical flow outcomes),
and generateimagetag never returns None, so the fatal no-tag arm is
unreachable. -/
theorem C10_empty_tag_flag :
    resolveTagArg none = "-t" ∧ resolveTagArg (some "") = "-t" ∧
    (∀ (env : EnvVars) (eng : EngineEnv) (fs : FS) (pieces : List String)
       (bi ri : Option String),
       devFlow env eng fs pieces ⟨bi, ri, none⟩ = devFlow env eng fs pieces ⟨bi, ri, some ""⟩) ∧
    (∀ (env : EnvVars) (eng : EngineEnv) (fs : FS) (pieces : List String)
       (li : Option String),
       testFlow env eng fs pieces ⟨li, none⟩ = testFlow env eng fs pieces ⟨li, some ""⟩) ∧
    (∀ (env : EnvVars) (eng : EngineEnv) (fs : FS) (pieces : List String)
       (bi ri : Option String),
       releaseFlow env eng fs pieces ⟨bi, ri, none⟩ =
         releaseFlow env eng fs pieces ⟨bi, ri, some ""⟩) ∧
    (∀ (pieces : List String) (lg : Option String) (bt : String),
       (generateimagetag pieces lg bt).isSome = true) := by
  refine ⟨rfl, rfl, fun _ _ _ _ _ _ => rfl, fun _ _ _ _ _ => rfl,
    fun _ _ _ _ _ _ => rfl, fun pieces lg bt => ?_⟩
  cases lg <;> rfl

/-- Claim C7: the gen flow never overwrites an existing Dockerfile — the
file bytes are kept, a warning is printed and the flow does not exit with
an error — and writes the rendered Dockerfile only when none exists. -/
theorem C7_gen_no_overwrite :
    (∀ (env : EnvVars) (d : Dir) (c : List Char) (a : GenArgs),
       genFlow env d (some c) a = ⟨[.printMsg dockerfileExistsMsg], none, some c⟩) ∧
    (∀ (env : EnvVars) (d : Dir) (a : GenArgs),
       genFlow env d none a =
         ⟨[.writeDockerfile], none,
          some (genRender releaseTemplate
            (resolveImage a.buildimage env.releaseBuildImageVar releaseBuildImageDefault).toList
            (resolveImage a.runtimeimage env.runtimeImageVar runtimeImageDefault).toList
            d.hasLib d.hasEnvFile)⟩) :=
  ⟨fun _ _ _ _ => rfl, fun _ _ _ => rfl⟩

/-- Claim C6: when functions.rs is missing from the working directory and
its src subdirectory, the dev, test and release flows print the cannot-find
diagnostic and exit 1 with no engine spawn; when it is only under src, they
continue from the src subdirectory with the path extended by "src". -/
theorem C6_entrypoint_check (env : EnvVars) (eng : EngineEnv) (fs : FS)
    (pieces : List String) (a : BuildArgs) (ta : TestArgs)
    (h1 : fs.cwd.hasFunctions = false) :
    (fs.srcSub.hasFunctions = false →
      devFlow env eng fs pieces a = ⟨[.printMsg cannotFindMsg], some 1, none, none⟩ ∧
      testFlow env eng fs pieces ta = ⟨[.printMsg cannotFindMsg], some 1, none, none⟩ ∧
      releaseFlow env eng fs pieces a = ⟨[.printMsg cannotFindMsg], some 1, none, none⟩ ∧
      Ev.spawnDocker ∉ (devFlow env eng fs pieces a).events ∧
      Ev.spawnPodman ∉ (devFlow env eng fs pieces a).events ∧
      Ev.spawnBuild ∉ (devFlow env eng fs pieces a).events) ∧
    (fs.srcSub.hasFunctions = true →
      devFlow env eng fs pieces a =
        devAfterCheck env eng a fs.srcSub (pieces ++ ["src"]) [.chdirSrc] ∧
      testFlow env eng fs pieces ta =
        testAfterCheck env eng ta fs.srcSub (pieces ++ ["src"]) [.chdirSrc] ∧
      releaseFlow env eng fs pieces a =
        releaseAfterCheck env eng a fs.srcSub (pieces ++ ["src"]) [.chdirSrc]) := by
  constructor
  · intro h2
    have hdev : devFlow env eng fs pieces a =
        ⟨[.printMsg cannotFindMsg], some 1, none, none⟩ := by
      simp [devFlow, entryCheck, h1, h2]
    refine ⟨hdev, by simp [testFlow, entryCheck, h1, h2],
      by simp [releaseFlow, entryCheck, h1, h2], ?_, ?_, ?_⟩ <;> simp [hdev]
  · intro h2
    exact ⟨by simp [devFlow, entryCheck, h1, h2],
      by simp [testFlow, entryCheck, h1, h2],
      by simp [releaseFlow, entryCheck, h1, h2]⟩

/-- Witness for C6_entrypoint_check: a concrete filesystem with functions.rs
absent everywhere makes the dev flow exit 1 with only the diagnostic. -/
theorem C6_entrypoint_check_witness :
    devFlow ⟨none, none, none, none⟩ ⟨none, true, "", true, "", true⟩
        ⟨⟨false, false, false⟩, ⟨false, false, false⟩⟩ ["home", "u", "app"]
        ⟨none, none, none⟩ =
      ⟨[.printMsg cannotFindMsg], some 1, none, none⟩ :=
  ((C6_entrypoint_check ⟨none, none, none, none⟩ ⟨none, true, "", true, "", true⟩
      ⟨⟨false, false, false⟩, ⟨false, false, false⟩⟩ ["home", "u", "app"]
      ⟨none, none, none⟩ ⟨none, none⟩ rfl).1 rfl).1
